import Mathlib

set_option maxRecDepth 8000

-- Shallow embedding of src/bot.py (PooyaBot): a Telegram bot that answers one
-- user message per turn by running a LangGraph agent loop (nodes "agent" and
-- "tools", conditional edge decided by should_continue) over a chat model with
-- three tools, then extracts a textual reply with fallbacks.  External effects
-- (the vector store, GitHub, the model) are modelled as oracles passed in as
-- function arguments; a raised Python exception is modelled as an explicit
-- error value carrying the rendered exception message.

namespace PooyaBot

-- The transport guard of handle_message (bot.py lines 172-176):
-- in Python, `not user_text or not user_text.strip()` holds exactly when the
-- text is empty or consists only of whitespace characters.
def is_blank (s : String) : Bool :=
  s.data.all (fun c => c.isWhitespace)

-- Outcome of one interaction with an external backend: either its value, or a
-- raised exception rendered as its message string (Python `except Exception as e`).
inductive BackendResult (α : Type) where
  | ok (val : α)
  | exn (msg : String)
  deriving DecidableEq

-- Tool check_my_memory (bot.py lines 84-97).  The retrieval backend
-- (vectorstore.as_retriever(...).invoke(query), k = 3) is an oracle returning
-- the page contents of the retrieved documents, or a raised exception.
def check_my_memory (retrieve : String → BackendResult (List String))
    (query : String) : String :=
  match retrieve query with
  | BackendResult.ok docs =>
      if docs.isEmpty then "No specific personal memory found."
      else String.intercalate "\n\n" docs
  | BackendResult.exn e => "Error reading memory: " ++ e

-- A GitHub repository as read by check_github_activity.
structure Repo where
  name : String
  html_url : String
  description : Option String
  deriving DecidableEq

-- `desc = repo.description if repo.description else "No description"`:
-- Python truthiness treats both None and the empty string as falsy.
def repoDesc (r : Repo) : String :=
  match r.description with
  | some d => if d = "" then "No description" else d
  | none => "No description"

def repoLine (r : Repo) : String :=
  "Repo: " ++ r.name ++ " | URL: " ++ r.html_url ++ " | Desc: " ++ repoDesc r

-- Tool check_github_activity (bot.py lines 100-120).  The whole GitHub
-- interaction (client construction, get_user, get_repos) is an oracle giving the
-- repository listing or a raised exception; the code keeps the first 3 repos.
-- Note the query argument is accepted but never used by the body.
def check_github_activity (gh : BackendResult (List Repo))
    (query : String) : String :=
  match gh with
  | BackendResult.ok repos =>
      let info := (repos.take 3).map repoLine
      if info.isEmpty then "No recent public repositories found."
      else String.intercalate "\n" info
  | BackendResult.exn e => "Error connecting to GitHub: " ++ e

-- A tool call requested by the model.
structure ToolCall where
  id : String
  tool_name : String
  args : String
  deriving DecidableEq

-- One element of a structured (list-valued) message content, as probed by the
-- extraction code: either a dict that has a "text" key, or any other Python
-- value, carried with its repr() rendering.
inductive Segment where
  | dictWithText (text : String)
  | otherSeg (pyRepr : String)
  deriving DecidableEq

-- The possible shapes of a LangChain message content as the extraction code
-- distinguishes them: a plain string, a list of segments, or anything else
-- (e.g. None), bot.py lines 216-227.
inductive Content where
  | ofString (s : String)
  | ofList (segs : List Segment)
  | otherValue
  deriving DecidableEq

-- The model's response message: content plus the requested tool calls
-- (an AIMessage; tool_calls is empty when the answer is final).
structure AIMessage where
  content : Content
  tool_calls : List ToolCall
  deriving DecidableEq

-- An entry of the conversation log (AgentState.messages).
inductive Message where
  | system (content : String)
  | user (content : String)
  | ai (content : Content) (tool_calls : List ToolCall)
  | tool (content : String) (tool_call_id : String)
  deriving DecidableEq

def message_content : Message → Content
  | Message.system s => Content.ofString s
  | Message.user s => Content.ofString s
  | Message.ai c _ => c
  | Message.tool s _ => Content.ofString s

-- Python str() of a list renders "[" ++ comma-separated reprs ++ "]"; a dict
-- with a "text" key renders with braces and quotes around the key and value.
def pyReprSegment : Segment → String
  | Segment.dictWithText t => "\x7b\x27text\x27: \x27" ++ t ++ "\x27\x7d"
  | Segment.otherSeg r => r

def pyStrOfList (segs : List Segment) : String :=
  "[" ++ String.intercalate ", " (segs.map pyReprSegment) ++ "]"

def fallback_text : String :=
  "I\x27m thinking, but I couldn\x27t formulate a text response."

-- Robust text extraction, bot.py lines 216-227:
--   if isinstance(content, list) and len(content) > 0:
--       if isinstance(content[0], dict) and "text" in content[0]:
--           bot_reply = content[0]["text"]
--       else:
--           bot_reply = str(content)
--   elif isinstance(content, str):
--       bot_reply = content
--   else:
--       bot_reply = "I'm thinking, but I couldn't formulate a text response."
def extract_reply : Content → String
  | Content.ofList (seg :: rest) =>
      match seg with
      | Segment.dictWithText t => t
      | Segment.otherSeg r => pyStrOfList (Segment.otherSeg r :: rest)
  | Content.ofList [] => fallback_text
  | Content.ofString s => s
  | Content.otherValue => fallback_text

-- Modelled from the spec (section 4.4, answer extraction), for comparison with
-- extract_reply: "if content is structured (e.g. a sequence of content
-- segments) rather than plain text, the Orchestrator extracts the first
-- textual segment, falling back to a generic string if none exists".
def first_text_segment : List Segment → Option String
  | [] => none
  | Segment.dictWithText t :: _ => some t
  | Segment.otherSeg _ :: rest => first_text_segment rest

def extract_reply_spec : Content → String
  | Content.ofString s => s
  | Content.ofList segs =>
      match first_text_segment segs with
      | some t => t
      | none => fallback_text
  | Content.otherValue => fallback_text

-- Target of the conditional edge out of the "agent" node.
inductive NextNode where
  | tools
  | stop
  deriving DecidableEq

-- should_continue (bot.py lines 147-151): routed on the last message of the
-- state, which after the "agent" node is the model's AIMessage; returns "tools"
-- exactly when its tool_calls list is truthy (non-empty), END otherwise.
def should_continue (last_message : AIMessage) : NextNode :=
  if last_message.tool_calls.isEmpty then NextNode.stop else NextNode.tools

-- Why a graph invocation can fail: the LangGraph recursion limit was exceeded
-- (GraphRecursionError), or the model call inside the agent node raised.
inductive GraphErr where
  | recursionLimit
  | modelError (msg : String)
  deriving DecidableEq

-- Result of app_graph.invoke: the final message list or a raised error, plus a
-- count of how many model invocations (agent-node llm calls) were attempted.
structure GraphRun where
  result : Except GraphErr (List Message)
  model_calls : Nat

inductive Node where
  | agent
  | tools
  deriving DecidableEq

-- The ToolNode reads the pending tool calls from the last (assistant) message.
def pendingToolCalls (msgs : List Message) : List ToolCall :=
  match msgs.getLast? with
  | some (Message.ai _ tcs) => tcs
  | _ => []

-- One LangGraph execution with `fuel` remaining supersteps (the recursion
-- limit counts every node execution: agent nodes and tool nodes alike; when
-- one more superstep is needed than the limit allows, GraphRecursionError is
-- raised).  The agent node appends the model's AIMessage (add_messages) and
-- the conditional edge routes via should_continue; the tools node appends one
-- tool message per requested call (our tools never raise, see above) and
-- returns to the agent node.
def runGraphAux (llm : List Message → Except String AIMessage)
    (toolExec : ToolCall → String) :
    Nat → Node → List Message → GraphRun
  | 0, _, _ => ⟨Except.error GraphErr.recursionLimit, 0⟩
  | fuel + 1, Node.agent, msgs =>
      match llm msgs with
      | Except.error e => ⟨Except.error (GraphErr.modelError e), 1⟩
      | Except.ok r =>
          match should_continue r with
          | NextNode.stop =>
              ⟨Except.ok (msgs ++ [Message.ai r.content r.tool_calls]), 1⟩
          | NextNode.tools =>
              let rest := runGraphAux llm toolExec fuel Node.tools
                (msgs ++ [Message.ai r.content r.tool_calls])
              ⟨rest.result, rest.model_calls + 1⟩
  | fuel + 1, Node.tools, msgs =>
      runGraphAux llm toolExec fuel Node.agent
        (msgs ++ (pendingToolCalls msgs).map
          (fun c => Message.tool (toolExec c) c.id))

-- config={"recursion_limit": 10} at bot.py line 210.
def recursion_limit : Nat := 10

-- app_graph.invoke({"messages": messages}, config={"recursion_limit": 10}):
-- entry point is the "agent" node.
def invoke_graph (llm : List Message → Except String AIMessage)
    (toolExec : ToolCall → String) (messages : List Message) : GraphRun :=
  runGraphAux llm toolExec recursion_limit Node.agent messages

-- The system prompt (bot.py lines 181-203), fixed policy content.
def system_message : String :=
  "You are the AI Digital Twin of **Pooya Nasiri**. You are a developer, a mentor, and a digital secretary.\n\n    **CORE IDENTITY & TONE:**\n    1. **The Persona:** You are friendly, tech-savvy, and warm, but your defining characteristic is **SARCASM**. You love a good joke, you are witty, and you often poke fun at the user\x27s questions before helping them.\n    2. **The \"Not an AI\" Rule:** NEVER say \"As an AI\". You are the digital essence of Pooya.\n    3. **Third Person ONLY:** You must **ALWAYS** speak about Pooya in the third person.\n       - WRONG: \"I think you should...\" or \"I suggest...\"\n       - RIGHT: \"Pooya suggests that you...\" or \"Pooya thinks this is a terrible idea, but he would say...\"\n    4. **Language Protocol:** - **English:** Refer to him as \"Pooya\".\n       - **Persian (Farsi):** If the user speaks Farsi, you MUST respond in Farsi. Refer to him as \"پویا\". Be just as sarcastic and helpful in Farsi.\n\n    **TOOL USAGE STRATEGY:**\n    - **Step 1 (Memory):** Always use `check_my_memory` first. See if Pooya has actual past experiences, resume details, or specific opinions on the topic.\n    - **Step 2 (Live Info):** Use `web_search` if the user asks about the weather, current news, or wants to know what Pooya is up to on LinkedIn/Instagram.\n    - **Step 3 (Code):** Use `check_github_activity` ONLY for questions about coding, repositories, or technical stacks.\n\n    **THE \"NEVER GIVE UP\" RULE (CRITICAL):**\n    - If the tools return \"No results\" (e.g., for \"How to fix a broken heart\" or \"How to sleep better\"), **DO NOT** say \"Pooya doesn\x27t know\" or \"I have no information.\"\n    - **INSTEAD:** Improvise! Use general knowledge but **frame it through Pooya\x27s personality.**\n       - *Example:* \"Pooya hasn\x27t committed code for \x27better sleep\x27 to GitHub yet, but he would probably tell you to stop staring at blue light and close your tabs.\"\n       - *Example (Farsi):* \"پویا متخصص قلب نیست، اما پیشنهاد می‌کند که...\"\n    - **Always provide an answer**, even if it\x27s a sarcastic life tip based on general logic.\n    "

-- messages = [SystemMessage(content=system_message), HumanMessage(content=user_text)]
-- built afresh inside handle_message on every turn (bot.py line 205).
def seed_messages (user_text : String) : List Message :=
  [Message.system system_message, Message.user user_text]

def valid_text_prompt : String := "Please send a valid text message."

def internal_error_reply : String :=
  "Sorry, I encountered an internal error. Please try again."

-- The body of the try/except around the graph invocation (bot.py lines
-- 207-231): on success take result["messages"][-1] and run the robust
-- extraction; any raised exception (model error, recursion limit, or an
-- impossible empty message list) is caught and replaced by the apology.
def reply_of (run : GraphRun) : String :=
  match run.result with
  | Except.ok msgs =>
      match msgs.getLast? with
      | some final_message => extract_reply (message_content final_message)
      | none => internal_error_reply
  | Except.error _ => internal_error_reply

-- The observable outcome of one handle_message turn: the text sent back to the
-- chat, and how many model invocations were attempted.
structure TurnOutcome where
  reply : String
  model_calls : Nat

-- handle_message (bot.py lines 168-233), with the model and the tool
-- executions as oracles.  A blank text is answered by the transport guard
-- before the agent runs; otherwise the graph is invoked on the fresh
-- two-message seed and the reply is constructed as in reply_of.
def handle_message (llm : List Message → Except String AIMessage)
    (toolExec : ToolCall → String) (user_text : String) : TurnOutcome :=
  if is_blank user_text then ⟨valid_text_prompt, 0⟩
  else
    ⟨reply_of (invoke_graph llm toolExec (seed_messages user_text)),
      (invoke_graph llm toolExec (seed_messages user_text)).model_calls⟩

-- Concrete oracles used by counterexamples and witnesses.

def te_ok : ToolCall → String := fun _ => "ok"

def llm_final : List Message → Except String AIMessage :=
  fun _ => Except.ok ⟨Content.ofString "hi there", []⟩

def llm_empty : List Message → Except String AIMessage :=
  fun _ => Except.ok ⟨Content.ofString "", []⟩

def llm_fail : List Message → Except String AIMessage :=
  fun _ => Except.error "quota exceeded"

def always_tools_ai : List Message → AIMessage :=
  fun _ => ⟨Content.ofString "", [⟨"call_1", "check_my_memory", "resume"⟩]⟩

def always_tools_llm : List Message → Except String AIMessage :=
  fun m => Except.ok (always_tools_ai m)

-- Helper lemmas about the graph loop: one equation per branch of runGraphAux.

theorem runGraphAux_agent_error (llm : List Message → Except String AIMessage)
    (te : ToolCall → String) (n : Nat) (msgs : List Message) (e : String)
    (hm : llm msgs = Except.error e) :
    runGraphAux llm te (n + 1) Node.agent msgs =
      ⟨Except.error (GraphErr.modelError e), 1⟩ := by
  simp only [runGraphAux, hm]

theorem runGraphAux_agent_stop (llm : List Message → Except String AIMessage)
    (te : ToolCall → String) (n : Nat) (msgs : List Message) (r : AIMessage)
    (hm : llm msgs = Except.ok r) (hsc : should_continue r = NextNode.stop) :
    runGraphAux llm te (n + 1) Node.agent msgs =
      ⟨Except.ok (msgs ++ [Message.ai r.content r.tool_calls]), 1⟩ := by
  simp only [runGraphAux, hm, hsc]

theorem runGraphAux_agent_tools (llm : List Message → Except String AIMessage)
    (te : ToolCall → String) (n : Nat) (msgs : List Message) (r : AIMessage)
    (hm : llm msgs = Except.ok r) (hsc : should_continue r = NextNode.tools) :
    runGraphAux llm te (n + 1) Node.agent msgs =
      ⟨(runGraphAux llm te n Node.tools
          (msgs ++ [Message.ai r.content r.tool_calls])).result,
        (runGraphAux llm te n Node.tools
          (msgs ++ [Message.ai r.content r.tool_calls])).model_calls + 1⟩ := by
  simp only [runGraphAux, hm, hsc]

theorem runGraphAux_tools_eq (llm : List Message → Except String AIMessage)
    (te : ToolCall → String) (n : Nat) (msgs : List Message) :
    runGraphAux llm te (n + 1) Node.tools msgs =
      runGraphAux llm te n Node.agent
        (msgs ++ (pendingToolCalls msgs).map
          (fun c => Message.tool (te c) c.id)) := rfl

-- The number of model invocations is bounded by the superstep budget.
theorem model_calls_le_fuel (llm : List Message → Except String AIMessage)
    (te : ToolCall → String) :
    ∀ (fuel : Nat) (node : Node) (msgs : List Message),
      (runGraphAux llm te fuel node msgs).model_calls ≤ fuel := by
  intro fuel
  induction fuel with
  | zero =>
      intro node msgs
      simp [runGraphAux]
  | succ n ih =>
      intro node msgs
      cases node with
      | agent =>
          cases hm : llm msgs with
          | error e =>
              rw [runGraphAux_agent_error llm te n msgs e hm]
              show 1 ≤ n + 1
              omega
          | ok r =>
              cases hsc : should_continue r with
              | stop =>
                  rw [runGraphAux_agent_stop llm te n msgs r hm hsc]
                  show 1 ≤ n + 1
                  omega
              | tools =>
                  rw [runGraphAux_agent_tools llm te n msgs r hm hsc]
                  have := ih Node.tools (msgs ++ [Message.ai r.content r.tool_calls])
                  show (runGraphAux llm te n Node.tools
                    (msgs ++ [Message.ai r.content r.tool_calls])).model_calls + 1 ≤ n + 1
                  omega
      | tools =>
          rw [runGraphAux_tools_eq]
          exact Nat.le_succ_of_le (ih Node.agent _)

-- A successful graph run only appends to the message log it was started with,
-- and its final message is the assistant message of a successful model call.
theorem run_ok_shape (llm : List Message → Except String AIMessage)
    (te : ToolCall → String) :
    ∀ (fuel : Nat) (node : Node) (msgs out : List Message),
      (runGraphAux llm te fuel node msgs).result = Except.ok out →
      (∃ rest, out = msgs ++ rest) ∧
      ∃ pre r, llm pre = Except.ok r ∧
        out = pre ++ [Message.ai r.content r.tool_calls] := by
  intro fuel
  induction fuel with
  | zero =>
      intro node msgs out h
      exact absurd h (by simp [runGraphAux])
  | succ n ih =>
      intro node msgs out h
      cases node with
      | agent =>
          cases hm : llm msgs with
          | error e =>
              rw [runGraphAux_agent_error llm te n msgs e hm] at h
              exact absurd h (by simp)
          | ok r =>
              cases hsc : should_continue r with
              | stop =>
                  rw [runGraphAux_agent_stop llm te n msgs r hm hsc] at h
                  have hout : msgs ++ [Message.ai r.content r.tool_calls] = out :=
                    Except.ok.inj h
                  exact ⟨⟨[Message.ai r.content r.tool_calls], hout.symm⟩,
                    msgs, r, hm, hout.symm⟩
              | tools =>
                  rw [runGraphAux_agent_tools llm te n msgs r hm hsc] at h
                  obtain ⟨⟨rest, hrest⟩, hlast⟩ := ih Node.tools _ out h
                  refine ⟨⟨Message.ai r.content r.tool_calls :: rest, ?_⟩, hlast⟩
                  rw [hrest, List.append_assoc]
                  rfl
      | tools =>
          rw [runGraphAux_tools_eq] at h
          obtain ⟨⟨rest, hrest⟩, hlast⟩ := ih Node.agent _ out h
          refine ⟨⟨(pendingToolCalls msgs).map
            (fun c => Message.tool (te c) c.id) ++ rest, ?_⟩, hlast⟩
          rw [hrest, List.append_assoc]

-- With a model that always requests further tool calls, the loop burns its
-- whole superstep budget alternating agent and tools nodes and then raises the
-- recursion error; the agent node runs on the odd supersteps, so a budget of
-- fuel supersteps performs (fuel + 1) / 2 model invocations.
theorem run_always_tools (f : List Message → AIMessage) (te : ToolCall → String)
    (h : ∀ m, (f m).tool_calls ≠ []) :
    ∀ fuel : Nat,
      (∀ msgs, runGraphAux (fun m => Except.ok (f m)) te fuel Node.agent msgs =
        ⟨Except.error GraphErr.recursionLimit, (fuel + 1) / 2⟩) ∧
      (∀ msgs, runGraphAux (fun m => Except.ok (f m)) te fuel Node.tools msgs =
        ⟨Except.error GraphErr.recursionLimit, fuel / 2⟩) := by
  intro fuel
  induction fuel with
  | zero => exact ⟨fun msgs => rfl, fun msgs => rfl⟩
  | succ n ih =>
      constructor
      · intro msgs
        have hsc : should_continue (f msgs) = NextNode.tools := by
          unfold should_continue
          cases htc : (f msgs).tool_calls with
          | nil => exact absurd htc (h msgs)
          | cons a l => simp
        rw [runGraphAux_agent_tools (fun m => Except.ok (f m)) te n msgs (f msgs)
          rfl hsc, ih.2]
        show (⟨Except.error GraphErr.recursionLimit, n / 2 + 1⟩ : GraphRun) = _
        have harith : n / 2 + 1 = (n + 1 + 1) / 2 := by omega
        rw [harith]
      · intro msgs
        rw [runGraphAux_tools_eq, ih.1]

-- Python str() of a non-empty list always starts with a bracket, so it is
-- never the empty string.
theorem pyStrOfList_ne_empty (segs : List Segment) : pyStrOfList segs ≠ "" := by
  intro h
  have hlen : (pyStrOfList segs).length = 0 := by
    rw [h]
    decide
  rw [pyStrOfList, String.length_append, String.length_append] at hlen
  have h1 : ("[" : String).length = 1 := rfl
  have h2 : ("]" : String).length = 1 := rfl
  omega

-- Evaluation of reply_of on a known graph outcome.
theorem reply_of_error (run : GraphRun) (e : GraphErr)
    (h : run.result = Except.error e) : reply_of run = internal_error_reply := by
  unfold reply_of
  rw [h]

theorem reply_of_ok (run : GraphRun) (msgs : List Message)
    (h : run.result = Except.ok msgs) :
    reply_of run =
      (match msgs.getLast? with
        | some final_message => extract_reply (message_content final_message)
        | none => internal_error_reply) := by
  unfold reply_of
  rw [h]

/-- Claim C1 (amended): for every non-empty, non-whitespace user text, one turn
of handle_message is a total function producing a reply string (no exception
escapes: model failure and recursion overflow are caught and replaced by the
fixed apology), and the reply is non-empty provided every successful model
response carries content whose extraction is non-empty; the reply can be empty
exactly when the terminal assistant content extracts to the empty string (for
example, an empty content string). -/
theorem c1_amended :
    ∀ (llm : List Message → Except String AIMessage) (te : ToolCall → String)
      (s : String), is_blank s = false →
      (∀ m r, llm m = Except.ok r → extract_reply r.content ≠ "") →
      (handle_message llm te s).reply ≠ "" := by
  intro llm te s hb hok
  unfold handle_message
  rw [hb]
  show reply_of (invoke_graph llm te (seed_messages s)) ≠ ""
  cases hres : (invoke_graph llm te (seed_messages s)).result with
  | error e =>
      rw [reply_of_error _ e hres]
      decide
  | ok msgs =>
      obtain ⟨_, pre, r, hllm, hout⟩ :=
        run_ok_shape llm te recursion_limit Node.agent (seed_messages s) msgs hres
      rw [reply_of_ok _ msgs hres, hout, List.getLast?_concat]
      show extract_reply (message_content (Message.ai r.content r.tool_calls)) ≠ ""
      exact hok pre r hllm

/-- Witness for claim C1 (amended): with a model that immediately answers
"hi there", the turn on user text "hello" yields a non-empty reply. -/
theorem c1_amended_witness :
    is_blank "hello" = false ∧ (handle_message llm_final te_ok "hello").reply ≠ "" := by
  constructor
  · decide
  · refine c1_amended llm_final te_ok "hello" (by decide) ?_
    intro m r hr
    simp only [llm_final, Except.ok.injEq] at hr
    subst hr
    decide

/-- Counterexample to claim C1 as stated: when the model's final message has
the empty string as content, the constructed reply is the empty string, so the
turn does not always produce a non-empty reply. -/
theorem c1_counterexample :
    is_blank "hello" = false ∧
    (handle_message llm_empty te_ok "hello").reply = "" := by
  exact ⟨by decide, rfl⟩

/-- Claim C2 (amended): across any turn the number of model invocations is at
most the recursion limit (10); but the limit counts graph supersteps, tool
executions included, so a turn whose model always requests further tool calls
terminates after exactly 5 model invocations (10 supersteps), not 10, with the
fixed apology fallback text produced by the caught recursion error. -/
theorem c2_amended :
    (∀ (llm : List Message → Except String AIMessage) (te : ToolCall → String)
      (s : String), (handle_message llm te s).model_calls ≤ recursion_limit) ∧
    (∀ (f : List Message → AIMessage) (te : ToolCall → String) (s : String),
      is_blank s = false →
      (∀ m, (f m).tool_calls ≠ []) →
      (handle_message (fun m => Except.ok (f m)) te s).model_calls = 5 ∧
      (handle_message (fun m => Except.ok (f m)) te s).reply =
        internal_error_reply) := by
  constructor
  · intro llm te s
    unfold handle_message
    cases hb : is_blank s with
    | true =>
        show (0 : Nat) ≤ recursion_limit
        decide
    | false =>
        show (invoke_graph llm te (seed_messages s)).model_calls ≤ recursion_limit
        exact model_calls_le_fuel llm te recursion_limit Node.agent (seed_messages s)
  · intro f te s hb hf
    have hrun := (run_always_tools f te hf recursion_limit).1 (seed_messages s)
    unfold handle_message
    rw [hb]
    refine ⟨?_, ?_⟩
    · show (invoke_graph (fun m => Except.ok (f m)) te (seed_messages s)).model_calls = 5
      unfold invoke_graph
      rw [hrun]
      rfl
    · show reply_of (invoke_graph (fun m => Except.ok (f m)) te (seed_messages s)) =
        internal_error_reply
      unfold invoke_graph
      rw [hrun]
      rfl

/-- Witness for claim C2 (amended): a model that always requests a memory tool
call makes exactly 5 model invocations on the turn "hello" and the turn ends
with the fixed apology text. -/
theorem c2_amended_witness :
    is_blank "hello" = false ∧
    (∀ m, (always_tools_ai m).tool_calls ≠ []) ∧
    (handle_message always_tools_llm te_ok "hello").model_calls = 5 ∧
    (handle_message always_tools_llm te_ok "hello").reply = internal_error_reply := by
  refine ⟨by decide, fun m => by simp [always_tools_ai], ?_, ?_⟩
  · exact (c2_amended.2 always_tools_ai te_ok "hello" (by decide)
      (fun m => by simp [always_tools_ai])).1
  · exact (c2_amended.2 always_tools_ai te_ok "hello" (by decide)
      (fun m => by simp [always_tools_ai])).2

/-- Counterexample to claim C2 as stated: with the recursion limit set to 10, a
model that always requests further tool calls is invoked only 5 times before
the turn terminates (the limit counts tool supersteps too), so the turn does
not terminate at a bound of 10 model invocations. -/
theorem c2_counterexample :
    (handle_message always_tools_llm te_ok "hello").model_calls = 5 ∧
    (handle_message always_tools_llm te_ok "hello").model_calls ≠ recursion_limit ∧
    (handle_message always_tools_llm te_ok "hello").reply = internal_error_reply := by
  exact ⟨rfl, by decide, rfl⟩

/-- Claim C3: for every query, an exception raised anywhere inside a single
tool call is converted into a textual failure description of the form
"Error ...: cause" and returned instead of being propagated: the memory tool
returns "Error reading memory: cause", the GitHub tool returns
"Error connecting to GitHub: cause". -/
theorem c3_tool_errors :
    (∀ (retrieve : String → BackendResult (List String)) (q e : String),
      retrieve q = BackendResult.exn e →
      check_my_memory retrieve q = "Error reading memory: " ++ e) ∧
    (∀ (gh : BackendResult (List Repo)) (q e : String),
      gh = BackendResult.exn e →
      check_github_activity gh q = "Error connecting to GitHub: " ++ e) := by
  constructor
  · intro retrieve q e h
    unfold check_my_memory
    rw [h]
  · intro gh q e h
    unfold check_github_activity
    rw [h]

/-- Witness for claim C3: a concrete raised exception in each tool yields the
corresponding textual failure description. -/
theorem c3_witness :
    check_my_memory (fun _ => BackendResult.exn "timeout") "resume" =
      "Error reading memory: " ++ "timeout" ∧
    check_github_activity (BackendResult.exn "bad credentials") "repos" =
      "Error connecting to GitHub: " ++ "bad credentials" := by
  constructor
  · exact c3_tool_errors.1 (fun _ => BackendResult.exn "timeout") "resume" "timeout" rfl
  · exact c3_tool_errors.2 (BackendResult.exn "bad credentials") "repos"
      "bad credentials" rfl

/-- Claim C4 (amended): answer extraction is a total function of the terminal
content: a plain string is returned as-is (hence an empty string content gives
an empty reply); a non-empty list whose FIRST element is a dict carrying a
"text" key yields that element's text; any other non-empty list yields the
Python string rendering of the whole list (never empty), not the first textual
segment and not the fallback; an empty list or a non-string, non-list content
yields the fixed non-empty fallback string. -/
theorem c4_amended :
    (∀ s, extract_reply (Content.ofString s) = s) ∧
    (∀ t rest, extract_reply (Content.ofList (Segment.dictWithText t :: rest)) = t) ∧
    (∀ r rest,
      extract_reply (Content.ofList (Segment.otherSeg r :: rest)) =
        pyStrOfList (Segment.otherSeg r :: rest) ∧
      extract_reply (Content.ofList (Segment.otherSeg r :: rest)) ≠ "") ∧
    extract_reply (Content.ofList []) = fallback_text ∧
    extract_reply Content.otherValue = fallback_text ∧
    fallback_text ≠ "" := by
  refine ⟨fun s => rfl, fun t rest => rfl, fun r rest => ⟨rfl, ?_⟩, rfl, rfl, by decide⟩
  exact pyStrOfList_ne_empty (Segment.otherSeg r :: rest)

/-- Witness for claim C4 (amended): extraction evaluated on a concrete plain
string content. -/
theorem c4_witness :
    extract_reply (Content.ofString "hi there") = "hi there" :=
  c4_amended.1 "hi there"

/-- Counterexample to claim C4 as stated: on a list whose first element is not
a textual segment but whose second is, the code returns the Python rendering of
the whole list rather than the first textual segment (and rather than the
fallback when no textual segment exists); moreover extraction of an empty
string content is empty, so the extracted reply is not never-empty. -/
theorem c4_counterexample :
    extract_reply (Content.ofList [Segment.otherSeg "None", Segment.dictWithText "hi"]) ≠
      extract_reply_spec
        (Content.ofList [Segment.otherSeg "None", Segment.dictWithText "hi"]) ∧
    extract_reply_spec
        (Content.ofList [Segment.otherSeg "None", Segment.dictWithText "hi"]) = "hi" ∧
    extract_reply (Content.ofString "") = "" := by
  exact ⟨by decide, rfl, rfl⟩

/-- Claim C5: answer extraction is deterministic (equal terminal contents yield
equal reply texts) and idempotent (re-running the extraction on a message whose
content is the previously extracted text returns that same text). -/
theorem c5_extraction_deterministic :
    ∀ (x y : Content), x = y →
      extract_reply x = extract_reply y ∧
      extract_reply (Content.ofString (extract_reply x)) = extract_reply x := by
  intro x y h
  subst h
  exact ⟨rfl, rfl⟩

/-- Witness for claim C5: determinism and idempotence of extraction evaluated
on a concrete structured content. -/
theorem c5_witness :
    extract_reply (Content.ofList [Segment.dictWithText "hey"]) =
      extract_reply (Content.ofList [Segment.dictWithText "hey"]) ∧
    extract_reply (Content.ofString
        (extract_reply (Content.ofList [Segment.dictWithText "hey"]))) =
      extract_reply (Content.ofList [Segment.dictWithText "hey"]) :=
  c5_extraction_deterministic (Content.ofList [Segment.dictWithText "hey"])
    (Content.ofList [Segment.dictWithText "hey"]) rfl

/-- Claim C6: whenever the graph invocation fails (the model call raised, or
any other exception such as the recursion error escaped the agent-loop
invocation), the turn returns exactly the fixed apology string, exposing none
of the partial conversation state. -/
theorem c6_model_failure :
    ∀ (llm : List Message → Except String AIMessage) (te : ToolCall → String)
      (s : String) (err : GraphErr), is_blank s = false →
      (invoke_graph llm te (seed_messages s)).result = Except.error err →
      (handle_message llm te s).reply = internal_error_reply := by
  intro llm te s err hb herr
  unfold handle_message
  rw [hb]
  show reply_of (invoke_graph llm te (seed_messages s)) = internal_error_reply
  exact reply_of_error _ err herr

/-- Witness for claim C6: a model whose invocation always raises makes the turn
"hi" answer with the fixed apology string. -/
theorem c6_witness :
    is_blank "hi" = false ∧
    (invoke_graph llm_fail te_ok (seed_messages "hi")).result =
      Except.error (GraphErr.modelError "quota exceeded") ∧
    (handle_message llm_fail te_ok "hi").reply = internal_error_reply := by
  refine ⟨by decide, rfl, ?_⟩
  exact c6_model_failure llm_fail te_ok "hi" (GraphErr.modelError "quota exceeded")
    (by decide) rfl

/-- Claim C7: every empty or whitespace-only user text is rejected by the
transport guard before the agent graph runs: the model is never invoked and the
user receives the fixed prompt asking for a valid text message. -/
theorem c7_blank_rejected :
    ∀ (llm : List Message → Except String AIMessage) (te : ToolCall → String)
      (s : String), is_blank s = true →
      (handle_message llm te s).reply = valid_text_prompt ∧
      (handle_message llm te s).model_calls = 0 := by
  intro llm te s hb
  unfold handle_message
  rw [hb]
  exact ⟨rfl, rfl⟩

/-- Witness for claim C7: the whitespace-only text " " is answered by the
validity prompt with zero model invocations. -/
theorem c7_witness :
    is_blank " " = true ∧
    (handle_message llm_final te_ok " ").reply = valid_text_prompt ∧
    (handle_message llm_final te_ok " ").model_calls = 0 := by
  refine ⟨by decide, ?_, ?_⟩
  · exact (c7_blank_rejected llm_final te_ok " " (by decide)).1
  · exact (c7_blank_rejected llm_final te_ok " " (by decide)).2

/-- Claim C8: loop termination of a step depends only on the shape of the
model's response: should_continue routes to the tools node if and only if the
assistant message carries a non-empty tool_calls sequence, independently of the
message's content; accordingly a graph step whose model response has no tool
calls terminates with that assistant message appended as the final answer, and
one with tool calls proceeds to the tool-dispatch node. -/
theorem c8_termination_shape :
    ∀ (llm : List Message → Except String AIMessage) (te : ToolCall → String)
      (fuel : Nat) (msgs : List Message) (r : AIMessage) (c c2 : Content)
      (tcs : List ToolCall),
      (should_continue ⟨c, tcs⟩ = NextNode.tools ↔ tcs ≠ []) ∧
      should_continue ⟨c, tcs⟩ = should_continue ⟨c2, tcs⟩ ∧
      (llm msgs = Except.ok r →
        (r.tool_calls = [] →
          (runGraphAux llm te (fuel + 1) Node.agent msgs).result =
            Except.ok (msgs ++ [Message.ai r.content r.tool_calls])) ∧
        (r.tool_calls ≠ [] →
          (runGraphAux llm te (fuel + 1) Node.agent msgs).result =
            (runGraphAux llm te fuel Node.tools
              (msgs ++ [Message.ai r.content r.tool_calls])).result)) := by
  intro llm te fuel msgs r c c2 tcs
  refine ⟨?_, rfl, ?_⟩
  · cases tcs with
    | nil => simp [should_continue]
    | cons a l => simp [should_continue]
  · intro hm
    constructor
    · intro htc
      have hsc : should_continue r = NextNode.stop := by
        simp [should_continue, htc]
      rw [runGraphAux_agent_stop llm te fuel msgs r hm hsc]
    · intro htc
      have hsc : should_continue r = NextNode.tools := by
        unfold should_continue
        cases hl : r.tool_calls with
        | nil => exact absurd hl htc
        | cons a l => simp
      rw [runGraphAux_agent_tools llm te fuel msgs r hm hsc]

/-- Witness for claim C8: with a model response carrying one tool call, the
agent step continues into the tools node. -/
theorem c8_witness :
    always_tools_llm [] = Except.ok (always_tools_ai []) ∧
    (always_tools_ai []).tool_calls ≠ [] ∧
    (runGraphAux always_tools_llm te_ok 1 Node.agent []).result =
      (runGraphAux always_tools_llm te_ok 0 Node.tools
        ([] ++ [Message.ai (always_tools_ai []).content
          (always_tools_ai []).tool_calls])).result := by
  refine ⟨rfl, by decide, ?_⟩
  exact ((c8_termination_shape always_tools_llm te_ok 0 [] (always_tools_ai [])
    Content.otherValue Content.otherValue []).2.2 rfl).2 (by decide)

/-- Claim C9: every turn starts from the fresh two-message log consisting of
exactly the system prompt and the user message, and the graph only ever appends
to the log it was started from: a successful run's final message list extends
its initial list, so the full log is the seed followed by the appended
assistant and tool messages. -/
theorem c9_append_only :
    ∀ (llm : List Message → Except String AIMessage) (te : ToolCall → String)
      (fuel : Nat) (node : Node) (msgs out : List Message) (s : String),
      ((runGraphAux llm te fuel node msgs).result = Except.ok out →
        ∃ rest, out = msgs ++ rest) ∧
      ((invoke_graph llm te (seed_messages s)).result = Except.ok out →
        ∃ rest, out = Message.system system_message :: Message.user s :: rest) := by
  intro llm te fuel node msgs out s
  constructor
  · intro h
    exact (run_ok_shape llm te fuel node msgs out h).1
  · intro h
    obtain ⟨rest, hrest⟩ :=
      (run_ok_shape llm te recursion_limit Node.agent (seed_messages s) out h).1
    exact ⟨rest, hrest⟩

/-- Witness for claim C9: a model that answers immediately yields the final log
seed plus one assistant message, an extension of the fresh seed. -/
theorem c9_witness :
    (invoke_graph llm_final te_ok (seed_messages "hello")).result =
      Except.ok (seed_messages "hello" ++ [Message.ai (Content.ofString "hi there") []]) ∧
    (∃ rest, seed_messages "hello" ++ [Message.ai (Content.ofString "hi there") []] =
      Message.system system_message :: Message.user "hello" :: rest) := by
  refine ⟨rfl, ?_⟩
  exact (c9_append_only llm_final te_ok recursion_limit Node.agent
    (seed_messages "hello")
    (seed_messages "hello" ++ [Message.ai (Content.ofString "hi there") []])
    "hello").2 rfl

/-- Claim C10: each tool answers an empty backend result with a fixed non-empty
text: the memory tool returns "No specific personal memory found." when
retrieval yields no documents, and the GitHub tool returns "No recent public
repositories found." when no repositories are listed; neither message is the
empty string. -/
theorem c10_empty_results :
    ∀ q : String,
      check_my_memory (fun _ => BackendResult.ok []) q =
        "No specific personal memory found." ∧
      check_github_activity (BackendResult.ok []) q =
        "No recent public repositories found." ∧
      ("No specific personal memory found." : String) ≠ "" ∧
      ("No recent public repositories found." : String) ≠ "" := by
  intro q
  exact ⟨rfl, rfl, by decide, by decide⟩

/-- Witness for claim C10: the empty-backend answers evaluated at a concrete
query. -/
theorem c10_witness :
    check_my_memory (fun _ => BackendResult.ok []) "resume" =
      "No specific personal memory found." ∧
    check_github_activity (BackendResult.ok []) "resume" =
      "No recent public repositories found." ∧
    ("No specific personal memory found." : String) ≠ "" ∧
    ("No recent public repositories found." : String) ≠ "" :=
  c10_empty_results "resume"

end PooyaBot
